import Mathlib

/-!
Verification of `src/integrations/databricks/dlt_expectations.py`: the
`expect` decorator for Delta Live Tables pipelines and its helper
`_get_dlt_library`. The module is embedded shallowly: Python objects that the
decorator only passes around (engine handles, data contexts, GE expectation
configurations, positional arguments) are modelled by identities, exceptions by
an error type, and one call of the wrapped function by a pure function
returning the trace of observable effects together with either the raised
exception or the returned value.
-/

namespace DLT

/-- A handle to the host pipeline engine (the `dlt` module object), modelled by
an identity. -/
abbrev Engine := Nat

/-- A `BaseDataContext` handle, modelled by an identity. -/
abbrev DataContext := Nat

/-- A GE `ExpectationConfiguration` value, modelled by an identity. -/
abbrev GEConfig := Nat

/-- A positional call argument (for instance the dataframe), modelled by an
identity. -/
abbrev Arg := Nat

/-- Modelled from the spec: `DLTExpectation` (the spec calls it
`HostExpectation`) is defined in `integrations/databricks/dlt_expectation.py`,
which is not among the given source files. Spec section 3 describes it as an
immutable record of a name and a boolean condition string, created without
validation; the name may be absent (`None` in Python), which the wrapper indeed
passes when `dlt_expectation_name` was left unset. -/
structure DLTExpectation where
  name : Option String
  condition : String
deriving DecidableEq, Repr

/-- Modelled from the spec: the translator
(`translate_dlt_expectation_to_expectation_config` in
`dlt_expectation_translator.py`) and the factory method
(`DLTExpectationFactory.from_great_expectations_expectation` in
`dlt_expectation.py`) are repository code outside the given source files; spec
section 4.2 gives only their contracts, two pure functions total on well-formed
input. They are kept abstract as parameters of the wrapper, so every theorem
below holds for every choice of them. -/
structure ExternalFns where
  translate_dlt_expectation_to_expectation_config :
    List (Option String × String) → String → GEConfig
  from_great_expectations_expectation : GEConfig → Option String → DLTExpectation

/-- Observable effects of one call of the wrapped function, in trace order:
the translator call of line 109, the factory call of line 119, the checkpoint
run of line 128 (`run_ge_checkpoint_on_dataframe_from_suite`), the host-engine
registration `dlt.expect(name, condition)` of line 143, and the delegation
`func(*args, **kwargs)` of line 146. -/
inductive Event where
  | translateToGE (pairs : List (Option String × String)) (geType : String)
  | factoryFromGE (config : GEConfig) (nameOverride : Option String)
  | checkpointRun (ctx : DataContext) (df : Arg) (config : Option GEConfig)
  | register (engine : Engine) (name : Option String) (condition : String)
  | callFunc (args : List Arg) (kwargs : List (String × Arg))
deriving DecidableEq, Repr

/-- The Python exceptions this module can raise: `ModuleNotFoundError` from
`_get_dlt_library`, `UnsupportedExpectationConfiguration` from the both/neither
validation, and `IndexError` from the unguarded `args[0]` subscript. -/
inductive PyError where
  | moduleNotFound (msg : String)
  | unsupportedExpectationConfiguration (msg : String)
  | indexError
deriving DecidableEq, Repr

/-- Embedding of `_get_dlt_library` (lines 40-58). The Python body is
`try: dlt.__version__ / except NameError: dlt = dlt_library` followed by a
`None` check. Because `dlt` is assigned inside the function body, CPython
treats `dlt` as a local variable throughout the function, so `dlt.__version__`
raises `UnboundLocalError` (a subclass of `NameError`) on every call, whether
or not a process-global `dlt` binding exists; the handler then always binds the
local to the injected `dlt_library`. The `globalDlt` parameter models the
process-global binding that the `try` block was evidently meant to consult: in
the actual code that path is dead, and this definition is faithful to the code,
so `globalDlt` is never read. -/
def _get_dlt_library (globalDlt : Option Engine) (dlt_library : Option Engine) :
    Except PyError Engine :=
  match dlt_library with
  | none => Except.error (PyError.moduleNotFound "dlt library was not found")
  | some d => Except.ok d

/-- Lines 125-146 of `wrapper_expect`: the steps shared by both branches once a
`DLTExpectation` is in hand. If `data_context` is non-null the checkpoint is
run against `args[0]` with the decoration's `ge_expectation_configuration`; an
empty `args` makes the Python subscript raise `IndexError` before the
checkpoint call. Then `dlt.expect(name, condition)` registers the expectation
(the guard `if dlt_expectation is not None` on line 136 is true on every
reachable path, the factory being total), and finally
`return func(*args, **kwargs)`. -/
def wrapperTail {R : Type} (dlt : Engine) (data_context : Option DataContext)
    (ge_expectation_configuration : Option GEConfig)
    (dlt_expectation : DLTExpectation)
    (func : List Arg → List (String × Arg) → R)
    (args : List Arg) (kwargs : List (String × Arg)) :
    List Event × Except PyError R :=
  match data_context, args with
  | some _, [] => ([], Except.error PyError.indexError)
  | some ctx, df :: _ =>
      ([Event.checkpointRun ctx df ge_expectation_configuration,
        Event.register dlt dlt_expectation.name dlt_expectation.condition,
        Event.callFunc args kwargs],
       Except.ok (func args kwargs))
  | none, _ =>
      ([Event.register dlt dlt_expectation.name dlt_expectation.condition,
        Event.callFunc args kwargs],
       Except.ok (func args kwargs))

/-- Embedding of `wrapper_expect` (lines 83-146): one call of the function
wrapped by `expect(...)`. The decoration-time options come first, then the
wrapped `func` and the call's `args` and `kwargs`; the result is the trace of
observable effects paired with either the raised exception or the returned
value. Line by line: resolve the engine (line 85); raise if both or neither of
`dlt_expectation_condition` and `ge_expectation_configuration` were supplied
(87-100), with the source's exact messages; on the condition branch build
`DLTExpectation(name=dlt_expectation_name, condition=dlt_expectation_condition)`
and translate it with the single-pair list and the fixed target type
`expect_column_values_to_not_be_null` (103-114; the translated value is bound
to `ge_expectation` and never used afterwards); on the configuration branch
call the factory with the configuration and `dlt_expectation_name` as override
(115-123); then the shared tail. Note that the checkpoint call on lines
127-132 passes the decoration's `ge_expectation_configuration`, which on the
condition branch is `None`. -/
def wrapper_expect {R : Type} (ext : ExternalFns)
    (globalDlt : Option Engine)
    (dlt_expectation_name : Option String)
    (dlt_expectation_condition : Option String)
    (data_context : Option DataContext)
    (ge_expectation_configuration : Option GEConfig)
    (dlt_library : Option Engine)
    (func : List Arg → List (String × Arg) → R)
    (args : List Arg) (kwargs : List (String × Arg)) :
    List Event × Except PyError R :=
  match _get_dlt_library globalDlt dlt_library with
  | Except.error e => ([], Except.error e)
  | Except.ok dlt =>
    match dlt_expectation_condition, ge_expectation_configuration with
    | some _, some _ =>
        ([], Except.error (PyError.unsupportedExpectationConfiguration
          "Please provide only one of dlt_expectation_condition OR ge_expectation_configuration, not both."))
    | none, none =>
        ([], Except.error (PyError.unsupportedExpectationConfiguration
          "Please provide at least one type of expectation configuration"))
    | some cond, none =>
        let dlt_expectation : DLTExpectation :=
          { name := dlt_expectation_name, condition := cond }
        let _ge_expectation : GEConfig :=
          ext.translate_dlt_expectation_to_expectation_config
            [(dlt_expectation.name, dlt_expectation.condition)]
            "expect_column_values_to_not_be_null"
        let tail := wrapperTail dlt data_context none dlt_expectation func args kwargs
        (Event.translateToGE [(dlt_expectation.name, dlt_expectation.condition)]
            "expect_column_values_to_not_be_null" :: tail.1,
         tail.2)
    | none, some cfg =>
        let dlt_expectation : DLTExpectation :=
          ext.from_great_expectations_expectation cfg dlt_expectation_name
        let tail :=
          wrapperTail dlt data_context (some cfg) dlt_expectation func args kwargs
        (Event.factoryFromGE cfg dlt_expectation_name :: tail.1, tail.2)

/-- True exactly on `callFunc` events. -/
def Event.isCallFunc : Event → Bool
  | Event.callFunc _ _ => true
  | _ => false

/-- True exactly on `checkpointRun` events. -/
def Event.isCheckpointRun : Event → Bool
  | Event.checkpointRun _ _ _ => true
  | _ => false

/-- True exactly on `register` events. -/
def Event.isRegister : Event → Bool
  | Event.register _ _ _ => true
  | _ => false

/-- True exactly on `translateToGE` events. -/
def Event.isTranslateToGE : Event → Bool
  | Event.translateToGE _ _ => true
  | _ => false

/-- True exactly on `factoryFromGE` events. -/
def Event.isFactoryFromGE : Event → Bool
  | Event.factoryFromGE _ _ => true
  | _ => false

/-- A concrete choice of the external collaborators, used only to state closed
counterexamples and witnesses. -/
def extW : ExternalFns where
  translate_dlt_expectation_to_expectation_config := fun _ _ => 0
  from_great_expectations_expectation := fun cfg nm =>
    { name := nm, condition := toString cfg }

/-- A concrete wrapped function for closed statements: returns 100 plus the
number of positional arguments. -/
def funcW : List Arg → List (String × Arg) → Nat :=
  fun args _ => 100 + args.length

/-- C1: the claim (with the docstring of `_get_dlt_library`) says that when a
process-global engine handle is bound the resolver returns it and ignores the
injected handle. The code never does: Python scoping makes `dlt` a local
variable of `_get_dlt_library`, the `try` block always raises, and the injected
handle is always the one used. Concretely, with a global handle bound (engine
1) and no injected handle, the code raises `ModuleNotFoundError` instead of
returning the global handle; and with the global handle 1 bound and handle 2
injected, it returns the injected 2, not the global 1. -/
theorem c1_resolver_ignores_global_handle :
    _get_dlt_library (some 1) none =
      Except.error (PyError.moduleNotFound "dlt library was not found")
    ∧ _get_dlt_library (some 1) (some 2) = Except.ok 2 :=
  ⟨rfl, rfl⟩

/-- C2: with a resolvable engine, a decoration supplying both
`dlt_expectation_condition` and `ge_expectation_configuration` makes every call
raise `UnsupportedExpectationConfiguration` with the message naming both
options, and a decoration supplying neither makes every call raise
`UnsupportedExpectationConfiguration` with the message asking for at least one
expectation configuration; in both cases the trace is empty, so in particular
there is no `callFunc` event: the error is raised before the original function
executes. (When the engine is unresolvable, the module-not-found error of C4
precedes this validation.) -/
theorem c2_both_or_neither_raise_unsupported {R : Type} (ext : ExternalFns)
    (g : Option Engine) (nm : Option String) (c0 : String) (cfg0 : GEConfig)
    (ctx : Option DataContext) (eng : Engine)
    (func : List Arg → List (String × Arg) → R)
    (args : List Arg) (kwargs : List (String × Arg)) :
    wrapper_expect ext g nm (some c0) ctx (some cfg0) (some eng) func args kwargs =
      ([], Except.error (PyError.unsupportedExpectationConfiguration
        "Please provide only one of dlt_expectation_condition OR ge_expectation_configuration, not both."))
    ∧ wrapper_expect ext g nm none ctx none (some eng) func args kwargs =
      ([], Except.error (PyError.unsupportedExpectationConfiguration
        "Please provide at least one type of expectation configuration")) :=
  ⟨rfl, rfl⟩

/-- C3, counterexample: a decoration supplying exactly one of the two options
(a condition) and a resolvable engine, but also a non-null data context, called
with zero positional arguments: the wrapper raises `IndexError` while reading
`args[0]` and the original function never runs (no `callFunc` event), so its
return value (here `funcW [] [] = 100`) is not returned. -/
theorem c3_counterexample :
    wrapper_expect extW none (some "n") (some "c") (some 3) none (some 1) funcW [] [] =
      ([Event.translateToGE [(some "n", "c")] "expect_column_values_to_not_be_null"],
       Except.error PyError.indexError)
    ∧ (wrapper_expect extW none (some "n") (some "c") (some 3) none (some 1) funcW []
        []).2 ≠ Except.ok (funcW [] []) :=
  ⟨rfl, fun h => Except.noConfusion h⟩

/-- C3, amended: for every decoration supplying exactly one of
{condition, configuration} and a resolvable engine, and every call that in
addition either has no data context or supplies at least one positional
argument, the original function is called exactly once with exactly the
original positional and keyword arguments and its return value is returned
unchanged. (The counterexample forces the extra proviso: with a data context
and zero positional arguments the unguarded `args[0]` read aborts the call
before the original function runs.) -/
theorem c3_original_called_once_unchanged {R : Type} (ext : ExternalFns)
    (g : Option Engine) (nm cond : Option String)
    (ctx : Option DataContext) (cfg : Option GEConfig) (eng : Engine)
    (func : List Arg → List (String × Arg) → R)
    (args : List Arg) (kwargs : List (String × Arg))
    (hone : cond.isSome = !cfg.isSome)
    (hreach : ctx = none ∨ args ≠ []) :
    (wrapper_expect ext g nm cond ctx cfg (some eng) func args kwargs).1.filter
        Event.isCallFunc = [Event.callFunc args kwargs]
    ∧ (wrapper_expect ext g nm cond ctx cfg (some eng) func args kwargs).2 =
        Except.ok (func args kwargs) := by
  rcases hreach with h | h
  · subst h
    cases cond <;> cases cfg <;>
      simp_all [wrapper_expect, wrapperTail, _get_dlt_library,
        Event.isCallFunc, List.filter]
  · cases args with
    | nil => exact absurd rfl h
    | cons df rest =>
      cases ctx <;> cases cond <;> cases cfg <;>
        simp_all [wrapper_expect, wrapperTail, _get_dlt_library,
          Event.isCallFunc, List.filter]

/-- C3, amended, witness: the amended theorem applied at a concrete input — a
condition-only decoration with a data context, engine 1 injected, called with
one positional argument and one keyword argument. -/
theorem c3_original_called_once_unchanged_witness :
    (wrapper_expect extW none (some "n") (some "c") (some 3) none (some 1) funcW [5]
        [("k", 2)]).1.filter Event.isCallFunc = [Event.callFunc [5] [("k", 2)]]
    ∧ (wrapper_expect extW none (some "n") (some "c") (some 3) none (some 1) funcW [5]
        [("k", 2)]).2 = Except.ok (funcW [5] [("k", 2)]) :=
  c3_original_called_once_unchanged extW none (some "n") (some "c") (some 3) none 1
    funcW [5] [("k", 2)] rfl (Or.inr (by decide))

/-- C4: when no engine is globally bound and none was injected, every call of
the wrapped function raises the module-not-found error, whatever the
condition and configuration options are (valid or not), with an empty trace: no
validation, translation, checkpoint, registration or original-function call
ran. -/
theorem c4_unresolvable_engine_aborts {R : Type} (ext : ExternalFns)
    (nm cond : Option String) (ctx : Option DataContext) (cfg : Option GEConfig)
    (func : List Arg → List (String × Arg) → R)
    (args : List Arg) (kwargs : List (String × Arg)) :
    wrapper_expect ext none nm cond ctx cfg none func args kwargs =
      ([], Except.error (PyError.moduleNotFound "dlt library was not found")) :=
  rfl

/-- C5: for calls that reach the checkpoint step (engine resolvable, exactly
one of the two options supplied) with a non-null data context and at least one
positional argument, the wrapper runs the external checkpoint exactly once,
against the first positional argument, passing the decoration's
`ge_expectation_configuration` option: `some cfg0` on the configuration branch
and — when the condition branch was taken — `none`, not the config translated
from the condition. -/
theorem c5_checkpoint_uses_decoration_configuration {R : Type} (ext : ExternalFns)
    (g : Option Engine) (nm : Option String) (c0 : String) (cfg0 : GEConfig)
    (ctx0 : DataContext) (eng : Engine)
    (func : List Arg → List (String × Arg) → R)
    (df : Arg) (rest : List Arg) (kwargs : List (String × Arg)) :
    (wrapper_expect ext g nm (some c0) (some ctx0) none (some eng) func (df :: rest)
        kwargs).1.filter Event.isCheckpointRun = [Event.checkpointRun ctx0 df none]
    ∧ (wrapper_expect ext g nm none (some ctx0) (some cfg0) (some eng) func (df :: rest)
        kwargs).1.filter Event.isCheckpointRun =
      [Event.checkpointRun ctx0 df (some cfg0)] :=
  ⟨rfl, rfl⟩

/-- C6, counterexample: a call that is not one of the step-2 error conditions
(exactly one option is supplied, here a condition) but whose engine is
unresolvable: the wrapper raises the module-not-found error and the original
function does not run, so the step-2 errors are not the only circumstance in
which the wrapper alters the control flow of the wrapped function. -/
theorem c6_counterexample :
    wrapper_expect extW none (some "n") (some "c") none none none funcW [5] [] =
      ([], Except.error (PyError.moduleNotFound "dlt library was not found")) :=
  rfl

/-- C6, amended: the wrapper alters the control flow of the wrapped function
only by raising an error — the step-1 engine-unresolvable error, one of the two
step-2 configuration errors, or the index error reading the first positional
argument in the checkpoint step — and under every other circumstance the
original function runs exactly once with the original arguments and its value
is returned unchanged: every call either returns the original function's value
with exactly one `callFunc` event carrying the original arguments, or raises
one of those errors with no `callFunc` event. -/
theorem c6_observational_except_errors {R : Type} (ext : ExternalFns)
    (g lib : Option Engine) (nm cond : Option String) (ctx : Option DataContext)
    (cfg : Option GEConfig) (func : List Arg → List (String × Arg) → R)
    (args : List Arg) (kwargs : List (String × Arg)) :
    ((wrapper_expect ext g nm cond ctx cfg lib func args kwargs).2 =
        Except.ok (func args kwargs)
      ∧ (wrapper_expect ext g nm cond ctx cfg lib func args kwargs).1.filter
          Event.isCallFunc = [Event.callFunc args kwargs])
    ∨ (((wrapper_expect ext g nm cond ctx cfg lib func args kwargs).2 =
          Except.error (PyError.moduleNotFound "dlt library was not found")
        ∨ (wrapper_expect ext g nm cond ctx cfg lib func args kwargs).2 =
          Except.error (PyError.unsupportedExpectationConfiguration
            "Please provide only one of dlt_expectation_condition OR ge_expectation_configuration, not both.")
        ∨ (wrapper_expect ext g nm cond ctx cfg lib func args kwargs).2 =
          Except.error (PyError.unsupportedExpectationConfiguration
            "Please provide at least one type of expectation configuration")
        ∨ (wrapper_expect ext g nm cond ctx cfg lib func args kwargs).2 =
          Except.error PyError.indexError)
      ∧ (wrapper_expect ext g nm cond ctx cfg lib func args kwargs).1.filter
          Event.isCallFunc = []) := by
  cases lib <;> cases cond <;> cases cfg <;> cases ctx <;> cases args <;>
    simp [wrapper_expect, wrapperTail, _get_dlt_library, Event.isCallFunc,
      List.filter]

/-- C7: on the condition branch (condition supplied, configuration not, engine
resolvable) the wrapper builds `DLTExpectation(name, condition)` directly from
the decoration's name and condition and translates it exactly once, invoking
the translator with the single-pair list `[(name, condition)]` and the fixed
target rule type `expect_column_values_to_not_be_null` — never with more than
one pair. This holds whatever the data context and call arguments are, the
translation preceding the checkpoint step. -/
theorem c7_condition_branch_single_pair_translation {R : Type} (ext : ExternalFns)
    (g : Option Engine) (nm : Option String) (c0 : String)
    (ctx : Option DataContext) (eng : Engine)
    (func : List Arg → List (String × Arg) → R)
    (args : List Arg) (kwargs : List (String × Arg)) :
    (wrapper_expect ext g nm (some c0) ctx none (some eng) func args kwargs).1.filter
        Event.isTranslateToGE =
      [Event.translateToGE [(nm, c0)] "expect_column_values_to_not_be_null"] := by
  cases ctx <;> cases args <;>
    simp [wrapper_expect, wrapperTail, _get_dlt_library, Event.isTranslateToGE,
      List.filter]

/-- C8: on the configuration branch (configuration supplied, condition not,
engine resolvable) the wrapper calls the factory exactly once, with the
decoration's configuration and `dlt_expectation_name` as the override name
(first conjunct, for every data context and argument list); and on every call
that reaches the registration step — with at least one positional argument
(second conjunct), or with no data context (third conjunct) — it registers the
produced expectation exactly once with the resolved engine, passing that
expectation's name and condition string. -/
theorem c8_configuration_branch_factory_and_registration {R : Type}
    (ext : ExternalFns) (g : Option Engine) (nm : Option String) (cfg0 : GEConfig)
    (ctx : Option DataContext) (eng : Engine)
    (func : List Arg → List (String × Arg) → R)
    (df : Arg) (rest args : List Arg) (kwargs : List (String × Arg)) :
    (wrapper_expect ext g nm none ctx (some cfg0) (some eng) func args kwargs).1.filter
        Event.isFactoryFromGE = [Event.factoryFromGE cfg0 nm]
    ∧ (wrapper_expect ext g nm none ctx (some cfg0) (some eng) func (df :: rest)
        kwargs).1.filter Event.isRegister =
      [Event.register eng (ext.from_great_expectations_expectation cfg0 nm).name
        (ext.from_great_expectations_expectation cfg0 nm).condition]
    ∧ (wrapper_expect ext g nm none none (some cfg0) (some eng) func args
        kwargs).1.filter Event.isRegister =
      [Event.register eng (ext.from_great_expectations_expectation cfg0 nm).name
        (ext.from_great_expectations_expectation cfg0 nm).condition] := by
  refine ⟨?_, ?_, ?_⟩
  · cases ctx <;> cases args <;>
      simp [wrapper_expect, wrapperTail, _get_dlt_library, Event.isFactoryFromGE,
        List.filter]
  · cases ctx <;>
      simp [wrapper_expect, wrapperTail, _get_dlt_library, Event.isRegister,
        List.filter]
  · simp [wrapper_expect, wrapperTail, _get_dlt_library, Event.isRegister,
      List.filter]

/-- C9: a decoration with a non-null data context and an otherwise valid setup
(engine resolvable, exactly one option supplied — stated for both branches)
makes every call with zero positional arguments fail with `IndexError` when the
wrapper reads `args[0]` as the dataset: only the branch work preceding the
checkpoint has run, and no checkpoint, registration or original-function call
appears in the trace — there is no guard on the argument list's length. -/
theorem c9_empty_args_index_error {R : Type} (ext : ExternalFns)
    (g : Option Engine) (nm : Option String) (c0 : String) (cfg0 : GEConfig)
    (ctx0 : DataContext) (eng : Engine)
    (func : List Arg → List (String × Arg) → R) (kwargs : List (String × Arg)) :
    wrapper_expect ext g nm (some c0) (some ctx0) none (some eng) func [] kwargs =
      ([Event.translateToGE [(nm, c0)] "expect_column_values_to_not_be_null"],
       Except.error PyError.indexError)
    ∧ wrapper_expect ext g nm none (some ctx0) (some cfg0) (some eng) func [] kwargs =
      ([Event.factoryFromGE cfg0 nm], Except.error PyError.indexError) :=
  ⟨rfl, rfl⟩

/-- C10: the expectation name is never validated — a decoration on the
condition branch with `dlt_expectation_name` left unset builds the
`DLTExpectation` with a `none` name and invokes the engine's registration call
with that `none` name (shown with no data context for every argument list, and
with a data context on every call with a positional argument), and the call
completes normally, the original function's value being returned: no error is
raised by this module for the missing name. -/
theorem c10_missing_name_not_validated {R : Type} (ext : ExternalFns)
    (g : Option Engine) (c0 : String) (ctx0 : DataContext) (eng : Engine)
    (func : List Arg → List (String × Arg) → R)
    (df : Arg) (rest args : List Arg) (kwargs : List (String × Arg)) :
    (wrapper_expect ext g none (some c0) none none (some eng) func args
        kwargs).1.filter Event.isRegister = [Event.register eng none c0]
    ∧ (wrapper_expect ext g none (some c0) (some ctx0) none (some eng) func (df :: rest)
        kwargs).1.filter Event.isRegister = [Event.register eng none c0]
    ∧ (wrapper_expect ext g none (some c0) none none (some eng) func args kwargs).2 =
      Except.ok (func args kwargs) := by
  refine ⟨?_, ?_, ?_⟩
  · simp [wrapper_expect, wrapperTail, _get_dlt_library, Event.isRegister,
      List.filter]
  · simp [wrapper_expect, wrapperTail, _get_dlt_library, Event.isRegister,
      List.filter]
  · simp [wrapper_expect, wrapperTail, _get_dlt_library]

end DLT
